import Mathlib

/-!
Verification of the a0-plugin-honcho adapter.

Shallow embedding of the plugin's helper module
(`src/helpers/honcho_helper.py`) and of its three lifecycle hooks
(`_20_honcho_init.py`, `_20_honcho_sync.py`, `_30_honcho_context.py`).
Pure functions are translated directly; the stateful pieces (the
module-level context cache, the `_honcho` side-channel map attached to
an agent context) are threaded as explicit values; remote SDK calls are
abstracted as `Except`/`Bool` parameters describing their outcome.
-/

namespace Honcho

/-- Python runtime values, as far as the plugin's hooks ever inspect
them: `None`, booleans, integers, strings, lists and string-keyed
dicts (modelled as association lists with distinct keys). -/
inductive PyVal where
  | VNone : PyVal
  | VBool : Bool → PyVal
  | VInt : Int → PyVal
  | VStr : String → PyVal
  | VList : List PyVal → PyVal
  | VDict : List (String × PyVal) → PyVal

/-- Python truthiness (`bool(v)`) for the modelled values. -/
def truthy : PyVal → Bool
  | .VNone => false
  | .VBool b => b
  | .VInt n => n != 0
  | .VStr s => s != ""
  | .VList l => !l.isEmpty
  | .VDict ps => !ps.isEmpty

mutual

/-- Python `repr`, restricted to the modelled shapes (string escaping
inside `repr` of a string is elided; the dicts and lists the hooks see
carry plain words). Characters 0x7b/0x7d are the curly braces and 0x27
is the single quote of Python's rendering. -/
def pyRepr : PyVal → String
  | .VNone => "None"
  | .VBool b => if b then "True" else "False"
  | .VInt n => toString n
  | .VStr s => "\x27" ++ s ++ "\x27"
  | .VList l => "[" ++ String.intercalate ", " (pyReprList l) ++ "]"
  | .VDict ps => "\x7b" ++ String.intercalate ", " (pyReprPairs ps) ++ "\x7d"

/-- `repr` of each element of a Python list. -/
def pyReprList : List PyVal → List String
  | [] => []
  | v :: vs => pyRepr v :: pyReprList vs

/-- `repr` of each `key: value` entry of a Python dict. -/
def pyReprPairs : List (String × PyVal) → List String
  | [] => []
  | (k, v) :: ps => ("\x27" ++ k ++ "\x27: " ++ pyRepr v) :: pyReprPairs ps

end

/-- Python `str`: the identity on strings, `repr` elsewhere
(`str` and `repr` agree on `None`, booleans, numbers and containers). -/
def pyStr : PyVal → String
  | .VStr s => s
  | v => pyRepr v

/-- Model of `d.get(k)`: `None` when the key is absent. -/
def dictGet (ps : List (String × PyVal)) (k : String) : PyVal :=
  (List.lookup k ps).getD .VNone

/-- Python `a or b`: `a` when truthy, else `b`. -/
def pyOr (a b : PyVal) : PyVal :=
  if truthy a then a else b

/-- The extraction chain of `_extract_content`:
`raw.get("content") or raw.get("text") or raw.get("message")`. -/
def chainLookup (ps : List (String × PyVal)) : PyVal :=
  pyOr (dictGet ps "content") (pyOr (dictGet ps "text") (dictGet ps "message"))

/-- Test for Python's `is None`. -/
def isVNone : PyVal → Bool
  | .VNone => true
  | _ => false

/-- Test whether a value is a Python dict. -/
def isDict : PyVal → Bool
  | .VDict _ => true
  | _ => false

/-- Test whether a value is a Python string. -/
def isStr : PyVal → Bool
  | .VStr _ => true
  | _ => false

/-- The final line of `_extract_content`:
`return raw if isinstance(raw, str) else str(raw) if raw else ""`. -/
def finishExtract : PyVal → String
  | .VStr s => s
  | v => if truthy v then pyStr v else ""

/-- The `while isinstance(raw, dict) and depth < 10` loop of
`_extract_content`; `fuel` is the number of iterations still allowed,
i.e. `10 - depth`. -/
def extractLoop : Nat → PyVal → String
  | fuel + 1, .VDict ps =>
      let extracted := chainLookup ps
      if isVNone extracted then pyStr (.VDict ps)
      else extractLoop fuel extracted
  | _, raw => finishExtract raw

/-- `_extract_content` from `_20_honcho_sync.py`: unwrap nested dicts
through the `content`/`text`/`message` chain for at most 10 levels. -/
def _extract_content (content_data : PyVal) : String :=
  extractLoop 10 content_data

/-- Constant `_RETRY_ATTEMPTS` of `honcho_helper.py`. -/
def _RETRY_ATTEMPTS : Nat := 3

/-- Constant `_RETRY_BASE_DELAY` of `honcho_helper.py` (seconds, as a
rational). -/
def _RETRY_BASE_DELAY : ℚ := 1/2

/-- Observable outcome of running a function wrapped by the `_retry`
decorator: the value returned or exception re-raised, the number of
times the wrapped function was invoked, and the sleep durations
performed between attempts, in order. -/
structure RetryResult (E A : Type) where
  result : Except E A
  calls : Nat
  sleeps : List ℚ

/-- Body of the `for attempt in range(1, _RETRY_ATTEMPTS + 1)` loop
inside `_retry`'s wrapper. `f i` is the outcome of the i-th invocation
of the wrapped function. `fuel` is the number of loop iterations left;
`last` carries `last_exc`. When the loop is exhausted the wrapper does
`raise last_exc` (with `_RETRY_ATTEMPTS = 3` the loop always runs, so
the `default` for an absent `last_exc` is unreachable from `_retry`). -/
def retryLoop {E A : Type} [Inhabited E] (f : Nat → Except E A) :
    Nat → Nat → ℚ → Option E → List ℚ → Nat → RetryResult E A
  | 0, _, _, last, sleeps, calls => ⟨.error (last.getD default), calls, sleeps⟩
  | fuel + 1, attempt, delay, _, sleeps, calls =>
      match f attempt with
      | .ok a => ⟨.ok a, calls + 1, sleeps⟩
      | .error e =>
          if attempt < _RETRY_ATTEMPTS then
            retryLoop f fuel (attempt + 1) (delay * 2) (some e) (sleeps ++ [delay]) (calls + 1)
          else
            retryLoop f fuel (attempt + 1) delay (some e) sleeps (calls + 1)

/-- The `_retry` decorator of `honcho_helper.py`, applied to a function
whose i-th invocation gives `f i`: run up to `_RETRY_ATTEMPTS` attempts,
sleeping `delay` (starting at `_RETRY_BASE_DELAY`, doubling) after each
failed attempt except the last, then re-raise the last exception. -/
def _retry {E A : Type} [Inhabited E] (f : Nat → Except E A) : RetryResult E A :=
  retryLoop f _RETRY_ATTEMPTS 1 _RETRY_BASE_DELAY none [] 0

/-- Whitespace characters removed by Python's `str.strip()`. -/
def isPySpace (c : Char) : Bool :=
  c == ' ' || c == '\t' || c == '\n' || c == '\r' || c == '\x0b' || c == '\x0c'

/-- Python `str.strip()`: drop leading and trailing whitespace. -/
def pyStrip (s : String) : String :=
  ⟨((s.data.dropWhile isPySpace).reverse.dropWhile isPySpace).reverse⟩

/-- Python `str.lower()` on the ASCII letters the role strings use. -/
def pyLower (s : String) : String :=
  ⟨s.data.map Char.toLower⟩

deriving instance DecidableEq for Except

/-- Exceptions distinguished by the plugin's validation paths. -/
inductive PyError where
  | attributeError : PyError
  | valueError : PyError
  | typeError : PyError
deriving DecidableEq

/-- `_validate_role` from `honcho_helper.py`: `role.strip().lower()`
must be `user` or `assistant`, else `ValueError`. Calling `.strip()` on
a non-string Python value raises `AttributeError`. -/
def _validate_role : PyVal → Except PyError String
  | .VStr role =>
      let r := pyLower (pyStrip role)
      if r = "user" ∨ r = "assistant" then .ok r else .error .valueError
  | _ => .error .attributeError

/-- `_validate_content` from `honcho_helper.py`: non-strings raise
`TypeError`, strings empty after `strip()` raise `ValueError`. -/
def _validate_content : PyVal → Except PyError String
  | .VStr c =>
      let c2 := pyStrip c
      if c2 = "" then .error .valueError else .ok c2
  | _ => .error .typeError

/-- Which exceptions the `except (ValueError, TypeError)` clause of
`sync_message` catches. -/
def caughtBySync : PyError → Bool
  | .valueError => true
  | .typeError => true
  | .attributeError => false

/-- Observable behaviour of one `sync_message` call: its boolean return
value and whether it reached `ensure_initialized`, `get_client`, and
the `_push_message` attempt. -/
structure SyncTrace where
  result : Bool
  initCalled : Bool
  clientCalled : Bool
  pushAttempted : Bool
deriving DecidableEq

/-- `sync_message` from `honcho_helper.py`. The lazy-initialisation
outcome, client availability and push success are abstracted as the
booleans `initOk`, `clientOk`, `pushOk`; validation exceptions other
than `ValueError`/`TypeError` propagate to the caller. -/
def sync_message (role content : PyVal) (initOk clientOk pushOk : Bool) :
    Except PyError SyncTrace :=
  match _validate_role role with
  | .error e => if caughtBySync e then .ok ⟨false, false, false, false⟩ else .error e
  | .ok _r =>
      match _validate_content content with
      | .error e => if caughtBySync e then .ok ⟨false, false, false, false⟩ else .error e
      | .ok _c =>
          if !initOk then .ok ⟨false, true, false, false⟩
          else if !clientOk then .ok ⟨false, true, true, false⟩
          else .ok ⟨pushOk, true, true, true⟩

/-- The secret store seen by `get_api_key`/`get_config_value`: either
the loaded key-value pairs, or an exception raised while loading. -/
abbrev Secrets := Except Unit (List (String × String))

/-- `get_api_key` from `honcho_helper.py`: read `HONCHO_API_KEY` from
the secrets manager, strip it, map the empty result to `None`; any
exception from the store yields `None`. -/
def get_api_key (secrets : Secrets) : Option String :=
  match secrets with
  | .error _ => none
  | .ok kvs =>
      let value := pyStrip ((List.lookup "HONCHO_API_KEY" kvs).getD "")
      if value = "" then none else some value

/-- `is_configured` from `honcho_helper.py`: the SDK imported
(`HONCHO_AVAILABLE`) and a non-empty stripped API key resolved. -/
def is_configured (sdk : Bool) (secrets : Secrets) : Bool :=
  sdk && (get_api_key secrets).isSome

/-- The `_honcho` side-channel map the plugin attaches to an agent
context: whether the attribute exists, and the values (if present) of
its `enabled` and `session_id` keys. -/
structure HonchoState where
  attached : Bool
  enabled : Option Bool
  session_id : Option String
deriving DecidableEq

/-- Observable behaviour of one `ensure_initialized` call: its boolean
return value, the resulting `_honcho` state, and whether it consulted
the configuration (`is_configured`), fetched a client (`get_client`),
or touched the remote session (`client.session`/`peer`/`add_peers`). -/
structure InitOut where
  result : Bool
  state : HonchoState
  configConsulted : Bool
  clientFetched : Bool
  remoteTouched : Bool
deriving DecidableEq

/-- `ensure_initialized` from `honcho_helper.py`. `clientOk` abstracts
`get_client` returning a client, `sessionOk` the success of the remote
session/peer setup (whose `add_peers` failures the source swallows);
`sid` is the id `get_session_id` derives. On remote failure the source
sets `_honcho["enabled"] = False` and keeps any other keys. -/
def ensure_initialized (st : HonchoState) (sdk : Bool) (secrets : Secrets)
    (clientOk : Bool) (sid : String) (sessionOk : Bool) : InitOut :=
  if st.attached = true ∧ st.enabled = some true then
    ⟨true, st, false, false, false⟩
  else if !(is_configured sdk secrets) then
    ⟨false, st, true, false, false⟩
  else if !clientOk then
    ⟨false, st, true, true, false⟩
  else
    let st1 : HonchoState := if st.attached then st else ⟨true, none, none⟩
    if sessionOk then
      ⟨true, ⟨true, some true, some sid⟩, true, true, true⟩
    else
      ⟨false, ⟨true, some false, st1.session_id⟩, true, true, true⟩

/-- `HonchoInit.execute` from `_20_honcho_init.py`, as its effect on
the context's `_honcho` state. Every exception is caught inside the
hook, so it is a total function on the modelled state; `helperLoaded`
abstracts `_load_helper()` succeeding, `clientOk` the `get_client`
result. -/
def HonchoInit_execute (helperLoaded sdk : Bool) (secrets : Secrets)
    (clientOk : Bool) (sid : String) (st : HonchoState) : HonchoState :=
  if !helperLoaded then st
  else if !(is_configured sdk secrets) then st
  else if !clientOk then st
  else ⟨true, some true, some sid⟩

/-- Constant `CONTEXT_CACHE_TTL` of `honcho_helper.py` (seconds). -/
def CONTEXT_CACHE_TTL : ℚ := 120

/-- The module-level `_context_cache`: session id to
`(timestamp, context-or-None)`. -/
abbrev CtxCache := List (String × ℚ × Option String)

/-- Model of `_context_cache[sid] = v`: dict update keeps keys unique. -/
def cacheSet (c : CtxCache) (sid : String) (v : ℚ × Option String) : CtxCache :=
  (sid, v) :: c.filter (fun e => e.1 != sid)

/-- The remote `session.context()` object, as probed by
`get_user_context`: `none` models a missing attribute, `some s` an
attribute holding string `s` (`hasattr` plus truthiness are checked). -/
structure RemoteCtx where
  summary : Option String
  peer_representation : Option String
deriving DecidableEq

/-- Truthiness of an optional string attribute: present and non-empty. -/
def strTruthy : Option String → Bool
  | some s => s != ""
  | none => false

/-- Observable outcome of one `get_user_context` call: return value,
resulting `_context_cache`, and whether the remote session was queried
(`session.context()` reached). -/
structure GucOut where
  result : Option String
  cache : CtxCache
  remoteQueried : Bool
deriving DecidableEq

/-- The `isinstance(max_tokens, int)` check (Python bools are ints). -/
def pyIsInstanceInt : PyVal → Bool
  | .VInt _ => true
  | .VBool _ => true
  | _ => false

/-- Integer value of a Python int-like value. -/
def pyIntVal : PyVal → Int
  | .VInt n => n
  | .VBool b => if b then 1 else 0
  | _ => 0

/-- The `max_tokens` sanitisation at the top of `get_user_context`:
non-ints and values below 1 become 500. -/
def sanitizeMaxTokens (v : PyVal) : Int :=
  if !(pyIsInstanceInt v) || pyIntVal v < 1 then 500 else pyIntVal v

/-- The fetch path of `get_user_context` (from `client = get_client`
onwards): on exception from the remote query, log and return `None`
without touching the cache; on success, derive the summary-like result
and store `(now, result)` in the cache. -/
def gucFetch (sid : String) (clientOk : Bool) (remote : Except Unit RemoteCtx)
    (now : ℚ) (cache : CtxCache) : GucOut :=
  if !clientOk then ⟨none, cache, false⟩
  else
    match remote with
    | .error _ => ⟨none, cache, true⟩
    | .ok ctx =>
        let result : Option String :=
          if strTruthy ctx.summary then ctx.summary
          else if strTruthy ctx.peer_representation then ctx.peer_representation
          else none
        ⟨result, cacheSet cache sid (now, result), true⟩

/-- `get_user_context` from `honcho_helper.py`. `initOk` abstracts the
`ensure_initialized` outcome, `sid` the derived session id, `clientOk`
the `get_client` result, `remote` the outcome of the remote query, and
`now` the `time.time()` clock at this call. The sanitised `max_tokens`
is bound and, as in the source, never used afterwards. -/
def get_user_context (max_tokens : PyVal) (initOk : Bool) (sid : String)
    (clientOk : Bool) (remote : Except Unit RemoteCtx) (now : ℚ)
    (cache : CtxCache) : GucOut :=
  let _mt : Int := sanitizeMaxTokens max_tokens
  if !initOk then ⟨none, cache, false⟩
  else
    match List.lookup sid cache with
    | some (t, v) =>
        if now - t < CONTEXT_CACHE_TTL then ⟨v, cache, false⟩
        else gucFetch sid clientOk remote now cache
    | none => gucFetch sid clientOk remote now cache

/-! Theorems settling the claims. -/

/-- C1 counterexample: the payload `None` contains no `content`, `text`
or `message` key at any nesting depth, yet `_extract_content` returns
the empty string, not `str(None) = "None"`. -/
theorem extract_content_counterexample :
    _extract_content .VNone = "" ∧ pyStr .VNone = "None" ∧
    _extract_content .VNone ≠ pyStr .VNone :=
  ⟨rfl, rfl, by decide⟩

/-- C1 (amended): when the payload is a dict whose top-level lookup
chain over `content`/`text`/`message` yields `None`, extraction returns
the string form of that payload; a non-dict payload is returned as-is
when it is a string, stringified when truthy, and mapped to the empty
string (not its `str` form) when falsy. -/
theorem extract_content_dead_end (ps : List (String × PyVal)) (v : PyVal) :
    (isVNone (chainLookup ps) = true →
        _extract_content (.VDict ps) = pyStr (.VDict ps)) ∧
    (∀ s, _extract_content (.VStr s) = s) ∧
    (isDict v = false → isStr v = false → truthy v = true →
        _extract_content v = pyStr v) ∧
    (isDict v = false → truthy v = false → _extract_content v = "") := by
  refine ⟨?_, ?_, ?_, ?_⟩
  · intro h
    simp [_extract_content, extractLoop, h]
  · intro s
    rfl
  · intro hd hs ht
    cases v <;> simp_all [_extract_content, extractLoop, finishExtract, isDict, isStr, truthy]
  · intro hd ht
    cases v <;> simp_all [_extract_content, extractLoop, finishExtract, isDict, truthy]

/-- Witness for the amended C1 theorem at concrete payloads. -/
theorem extract_content_dead_end_witness :
    _extract_content (.VDict [("foo", .VInt 1)]) = pyStr (.VDict [("foo", .VInt 1)]) ∧
    _extract_content (.VStr "hello") = "hello" ∧
    _extract_content (.VInt 7) = pyStr (.VInt 7) ∧
    _extract_content (.VInt 0) = "" :=
  ⟨(extract_content_dead_end [("foo", .VInt 1)] (.VInt 7)).1 (by decide),
   (extract_content_dead_end [] (.VInt 7)).2.1 "hello",
   (extract_content_dead_end [] (.VInt 7)).2.2.1 (by decide) (by decide) (by decide),
   (extract_content_dead_end [] (.VInt 0)).2.2.2 (by decide) (by decide)⟩

/-- C2: a `_retry`-wrapped function that fails on every invocation is
called exactly 3 times with sleeps of 0.5s then 1.0s and the third
attempt's exception is re-raised; a wrapped function whose k-th
invocation succeeds (after k-1 failures) returns that result with
exactly k calls. -/
theorem retry_behavior {E A : Type} [Inhabited E] (f : Nat → Except E A) :
    ((∀ i, ∃ e, f i = .error e) →
        (_retry f).calls = 3 ∧ (_retry f).sleeps = [1/2, 1] ∧
        ∀ e, f 3 = .error e → (_retry f).result = .error e) ∧
    (∀ k a, 1 ≤ k → k ≤ 3 → f k = .ok a →
        (∀ j, 1 ≤ j → j < k → ∃ e, f j = .error e) →
        (_retry f).result = .ok a ∧ (_retry f).calls = k) := by
  constructor
  · intro hf
    obtain ⟨e1, h1⟩ := hf 1
    obtain ⟨e2, h2⟩ := hf 2
    obtain ⟨e3, h3⟩ := hf 3
    have hrun : _retry f = ⟨.error e3, 3, [1/2, 1]⟩ := by
      simp [_retry, retryLoop, _RETRY_ATTEMPTS, _RETRY_BASE_DELAY, h1, h2, h3]
    refine ⟨by rw [hrun], by rw [hrun], ?_⟩
    intro e he
    rw [h3] at he
    rw [hrun]
    simpa using he
  · intro k a hk1 hk3 hok hprev
    interval_cases k
    · have hrun : _retry f = ⟨.ok a, 1, []⟩ := by
        simp [_retry, retryLoop, _RETRY_ATTEMPTS, _RETRY_BASE_DELAY, hok]
      rw [hrun]
      exact ⟨rfl, rfl⟩
    · obtain ⟨e1, h1⟩ := hprev 1 (by norm_num) (by norm_num)
      have hrun : _retry f = ⟨.ok a, 2, [1/2]⟩ := by
        simp [_retry, retryLoop, _RETRY_ATTEMPTS, _RETRY_BASE_DELAY, h1, hok]
      rw [hrun]
      exact ⟨rfl, rfl⟩
    · obtain ⟨e1, h1⟩ := hprev 1 (by norm_num) (by norm_num)
      obtain ⟨e2, h2⟩ := hprev 2 (by norm_num) (by norm_num)
      have hrun : _retry f = ⟨.ok a, 3, [1/2, 1]⟩ := by
        simp [_retry, retryLoop, _RETRY_ATTEMPTS, _RETRY_BASE_DELAY, h1, h2, hok]
      rw [hrun]
      exact ⟨rfl, rfl⟩

/-- Witness for the retry theorem on an always-failing and an
immediately-succeeding function. -/
theorem retry_behavior_witness :
    (_retry (fun _ => (.error 7 : Except Nat Nat))).calls = 3 ∧
    (_retry (fun _ => (.error 7 : Except Nat Nat))).sleeps = [1/2, 1] ∧
    (_retry (fun _ => (.error 7 : Except Nat Nat))).result = .error 7 ∧
    (_retry (fun _ => (.ok 5 : Except Nat Nat))).result = .ok 5 ∧
    (_retry (fun _ => (.ok 5 : Except Nat Nat))).calls = 1 := by
  have h1 := (retry_behavior (fun _ => (.error 7 : Except Nat Nat))).1
    (fun _ => ⟨7, rfl⟩)
  have h2 := (retry_behavior (fun _ => (.ok 5 : Except Nat Nat))).2 1 5
    (by norm_num) (by norm_num) rfl (fun j hj1 hj2 => absurd (lt_of_le_of_lt hj1 hj2) (by norm_num))
  exact ⟨h1.1, h1.2.1, h1.2.2 7 rfl, h2.1, h2.2⟩

/-- C8: when `is_configured` is false, `HonchoInit.execute` leaves the
context's `_honcho` state exactly as it was (and, being total on the
modelled state, raises nothing to the host). -/
theorem HonchoInit_execute_frame (helperLoaded sdk : Bool) (secrets : Secrets)
    (clientOk : Bool) (sid : String) (st : HonchoState)
    (h : is_configured sdk secrets = false) :
    HonchoInit_execute helperLoaded sdk secrets clientOk sid st = st := by
  cases helperLoaded <;> simp [HonchoInit_execute, h]

/-- Witness for the init-hook frame theorem: no key in the store. -/
theorem HonchoInit_execute_frame_witness :
    HonchoInit_execute true true (.ok []) true "s" ⟨false, none, none⟩
      = ⟨false, none, none⟩ :=
  HonchoInit_execute_frame true true (.ok []) true "s" ⟨false, none, none⟩ (by decide)

/-- C9: `get_user_context` is insensitive to its `max_tokens` argument:
any two values (of any modelled Python type) give identical results
from the same cache, clock and remote state — the sanitised value is
never used, so no token cap is applied. -/
theorem get_user_context_max_tokens_independent (mt1 mt2 : PyVal) (initOk : Bool)
    (sid : String) (clientOk : Bool) (remote : Except Unit RemoteCtx) (now : ℚ)
    (cache : CtxCache) :
    get_user_context mt1 initOk sid clientOk remote now cache
      = get_user_context mt2 initOk sid clientOk remote now cache := rfl

/-- C3: once the cache holds `(t, v)` for the derived session id (a
fetch stored it), an initialised `get_user_context` call strictly less
than `CONTEXT_CACHE_TTL = 120` seconds later returns exactly `v`
(including `v = none`) without querying the remote session and without
changing the cache; a call at or after 120 seconds reaches the remote
query (given the client resolves, as a successful initialisation
provides). -/
theorem get_user_context_ttl (mt : PyVal) (sid : String) (cache : CtxCache)
    (t : ℚ) (v : Option String) (now : ℚ) (clientOk : Bool)
    (remote : Except Unit RemoteCtx)
    (hhit : List.lookup sid cache = some (t, v)) :
    (now - t < 120 →
        get_user_context mt true sid clientOk remote now cache = ⟨v, cache, false⟩) ∧
    (120 ≤ now - t → clientOk = true →
        (get_user_context mt true sid clientOk remote now cache).remoteQueried = true) := by
  constructor
  · intro hlt
    simp [get_user_context, hhit, CONTEXT_CACHE_TTL, hlt]
  · intro hge hc
    have hnlt : ¬(now - t < CONTEXT_CACHE_TTL) := by
      simp only [CONTEXT_CACHE_TTL, not_lt]
      exact hge
    simp only [get_user_context, hhit, hnlt, if_false, Bool.not_true, Bool.false_eq_true,
      if_neg, hc]
    cases remote <;> simp [gucFetch]

/-- Witness for the TTL theorem: a hit 10s after the store is served
from the cache, a call 200s after it queries the remote session. -/
theorem get_user_context_ttl_witness :
    get_user_context .VNone true "s" true (.error ()) 10 [("s", (0, some "x"))]
      = ⟨some "x", [("s", (0, some "x"))], false⟩ ∧
    (get_user_context .VNone true "s" true (.error ()) 200
        [("s", (0, some "x"))]).remoteQueried = true := by
  have h1 := get_user_context_ttl .VNone "s" [("s", ((0 : ℚ), some "x"))] 0 (some "x")
    10 true (.error ()) rfl
  have h2 := get_user_context_ttl .VNone "s" [("s", ((0 : ℚ), some "x"))] 0 (some "x")
    200 true (.error ()) rfl
  exact ⟨h1.1 (by norm_num), h2.2 (by norm_num) rfl⟩

/-- C4: when `get_user_context` reaches the remote query (cache miss or
expired entry, client available) and the query raises, the call returns
`None` and the cache is exactly as before; when the query succeeds, the
derived result — including `none` — is stored in the cache under the
session id, timestamped with the current clock. -/
theorem get_user_context_store (mt : PyVal) (sid : String) (cache : CtxCache) (now : ℚ)
    (hreach : List.lookup sid cache = none ∨
        ∃ t v, List.lookup sid cache = some (t, v) ∧ 120 ≤ now - t) :
    (∀ u : Unit, get_user_context mt true sid true (.error u) now cache
        = ⟨none, cache, true⟩) ∧
    (∀ ctx : RemoteCtx,
        List.lookup sid (get_user_context mt true sid true (.ok ctx) now cache).cache
          = some (now, (get_user_context mt true sid true (.ok ctx) now cache).result) ∧
        (get_user_context mt true sid true (.ok ctx) now cache).remoteQueried = true) := by
  have hred : ∀ r : Except Unit RemoteCtx,
      get_user_context mt true sid true r now cache = gucFetch sid true r now cache := by
    intro r
    rcases hreach with h | ⟨t, v, h, hge⟩
    · simp [get_user_context, h]
    · have hnlt : ¬(now - t < CONTEXT_CACHE_TTL) := by
        simp only [CONTEXT_CACHE_TTL, not_lt]
        exact hge
      simp [get_user_context, h, hnlt]
  constructor
  · intro u
    rw [hred]
    rfl
  · intro ctx
    rw [hred]
    simp [gucFetch, cacheSet, List.lookup]

/-- Witness for the store theorem: an empty cache, a raising query and
a successful one. -/
theorem get_user_context_store_witness :
    get_user_context .VNone true "s" true (.error ()) 0 [] = ⟨none, [], true⟩ ∧
    List.lookup "s" (get_user_context .VNone true "s" true
        (.ok ⟨some "c", none⟩) 0 []).cache
      = some (0, (get_user_context .VNone true "s" true
          (.ok ⟨some "c", none⟩) 0 []).result) := by
  have h := get_user_context_store .VNone "s" [] 0 (.inl rfl)
  exact ⟨h.1 (), (h.2 ⟨some "c", none⟩).1⟩

/-- C5: a string role whose stripped, lowercased form is neither
`user` nor `assistant` makes `sync_message` return `False` before
initialisation, client retrieval or any push; a role equal to `user` or
`assistant` up to case and surrounding whitespace passes validation and
is normalised to the canonical lowercase form. -/
theorem sync_message_role_validation (s : String) (content : PyVal)
    (initOk clientOk pushOk : Bool) :
    (pyLower (pyStrip s) ≠ "user" → pyLower (pyStrip s) ≠ "assistant" →
        sync_message (.VStr s) content initOk clientOk pushOk
          = .ok ⟨false, false, false, false⟩) ∧
    ((pyLower (pyStrip s) = "user" ∨ pyLower (pyStrip s) = "assistant") →
        _validate_role (.VStr s) = .ok (pyLower (pyStrip s))) := by
  constructor
  · intro h1 h2
    simp [sync_message, _validate_role, h1, h2, caughtBySync]
  · intro h
    simp [_validate_role, h]

/-- Witness for role validation: `system` is rejected with no side
effects, a padded mixed-case `UsEr` normalises to `user`. -/
theorem sync_message_role_validation_witness :
    sync_message (.VStr "system") (.VStr "x") true true true
      = .ok ⟨false, false, false, false⟩ ∧
    _validate_role (.VStr " UsEr ") = .ok "user" := by
  refine ⟨(sync_message_role_validation "system" (.VStr "x") true true true).1
      (by decide) (by decide), ?_⟩
  have h := (sync_message_role_validation " UsEr " (.VStr "x") true true true).2
    (.inl (by decide))
  exact h.trans (by decide)

/-- C6: `is_configured` is true exactly when the SDK is available and
the secret store loads without raising and resolves a `HONCHO_API_KEY`
that is non-empty after stripping; it is insensitive to every other
entry of the store. -/
theorem is_configured_spec (sdk : Bool) (secrets : Secrets) :
    (is_configured sdk secrets = true ↔
        sdk = true ∧ ∃ kvs, secrets = .ok kvs ∧
          pyStrip ((List.lookup "HONCHO_API_KEY" kvs).getD "") ≠ "") ∧
    (∀ kvs1 kvs2 : List (String × String),
        List.lookup "HONCHO_API_KEY" kvs1 = List.lookup "HONCHO_API_KEY" kvs2 →
        is_configured sdk (.ok kvs1) = is_configured sdk (.ok kvs2)) := by
  constructor
  · cases secrets with
    | error u => simp [is_configured, get_api_key]
    | ok kvs =>
        by_cases hv : pyStrip ((List.lookup "HONCHO_API_KEY" kvs).getD "") = ""
        · simp [is_configured, get_api_key, hv]
        · simp [is_configured, get_api_key, hv]
  · intro kvs1 kvs2 h
    simp [is_configured, get_api_key, h]

/-- Witness for the configuration theorem: a padded key configures, and
an extra unrelated entry does not change the verdict on a blank key. -/
theorem is_configured_spec_witness :
    is_configured true (.ok [("HONCHO_API_KEY", " k ")]) = true ∧
    is_configured true (.ok [("HONCHO_API_KEY", "  ")])
      = is_configured true (.ok [("HONCHO_API_KEY", "  "), ("HONCHO_WORKSPACE_ID", "w")]) := by
  refine ⟨?_, ?_⟩
  · exact (is_configured_spec true (.ok [("HONCHO_API_KEY", " k ")])).1.mpr
      ⟨rfl, [("HONCHO_API_KEY", " k ")], rfl, by decide⟩
  · exact (is_configured_spec true (.ok [])).2
      [("HONCHO_API_KEY", "  ")] [("HONCHO_API_KEY", "  "), ("HONCHO_WORKSPACE_ID", "w")]
      (by decide)

/-- Helper: a successful `ensure_initialized` leaves the side-channel
map attached with `enabled = True`. -/
theorem ensure_initialized_enabled_of_true (st : HonchoState) (sdk : Bool)
    (secrets : Secrets) (clientOk : Bool) (sid : String) (sessionOk : Bool)
    (h : (ensure_initialized st sdk secrets clientOk sid sessionOk).result = true) :
    (ensure_initialized st sdk secrets clientOk sid sessionOk).state.attached = true ∧
    (ensure_initialized st sdk secrets clientOk sid sessionOk).state.enabled = some true := by
  unfold ensure_initialized at h ⊢
  split_ifs at h ⊢ <;> simp_all

/-- C7: `ensure_initialized` short-circuits when the side-channel map
is attached with `enabled = True`: it returns `True`, leaves the state
untouched and consults neither configuration, client nor remote
session; consequently a second call after any successful call behaves
exactly that way under any environment. -/
theorem ensure_initialized_idempotent (st : HonchoState) (sdk : Bool) (secrets : Secrets)
    (clientOk : Bool) (sid : String) (sessionOk : Bool) :
    (st.attached = true → st.enabled = some true →
        ensure_initialized st sdk secrets clientOk sid sessionOk
          = ⟨true, st, false, false, false⟩) ∧
    (∀ sdk2 secrets2 clientOk2 sid2 sessionOk2,
        (ensure_initialized st sdk secrets clientOk sid sessionOk).result = true →
        ensure_initialized (ensure_initialized st sdk secrets clientOk sid sessionOk).state
            sdk2 secrets2 clientOk2 sid2 sessionOk2
          = ⟨true, (ensure_initialized st sdk secrets clientOk sid sessionOk).state,
              false, false, false⟩) := by
  constructor
  · intro h1 h2
    simp [ensure_initialized, h1, h2]
  · intro sdk2 secrets2 clientOk2 sid2 sessionOk2 hres
    obtain ⟨h1, h2⟩ := ensure_initialized_enabled_of_true st sdk secrets clientOk sid sessionOk hres
    generalize (ensure_initialized st sdk secrets clientOk sid sessionOk).state = s at h1 h2 ⊢
    simp [ensure_initialized, h1, h2]

/-- Witness for idempotence: an already-enabled state short-circuits,
and a freshly successful initialisation short-circuits on the second
call even in a broken environment. -/
theorem ensure_initialized_idempotent_witness :
    ensure_initialized ⟨true, some true, some "z"⟩ false (.error ()) false "q" false
      = ⟨true, ⟨true, some true, some "z"⟩, false, false, false⟩ ∧
    ensure_initialized (ensure_initialized ⟨false, none, none⟩ true
        (.ok [("HONCHO_API_KEY", "k")]) true "s" true).state false (.error ()) false "q" false
      = ⟨true, (ensure_initialized ⟨false, none, none⟩ true
          (.ok [("HONCHO_API_KEY", "k")]) true "s" true).state, false, false, false⟩ := by
  refine ⟨(ensure_initialized_idempotent ⟨true, some true, some "z"⟩ false (.error ())
      false "q" false).1 rfl rfl, ?_⟩
  exact (ensure_initialized_idempotent ⟨false, none, none⟩ true
      (.ok [("HONCHO_API_KEY", "k")]) true "s" true).2 false (.error ()) false "q" false
      (by decide)

/-- C10: a non-string role reaches `role.strip()` and raises an
`AttributeError` which `sync_message`'s `except (ValueError, TypeError)`
does not catch, so the call raises instead of returning `False`; a
non-string content with a valid role raises `TypeError`, which is
caught and turned into a `False` return. -/
theorem sync_message_nonstring (initOk clientOk pushOk : Bool) :
    (∀ role content : PyVal, isStr role = false →
        sync_message role content initOk clientOk pushOk = .error .attributeError) ∧
    (∀ content : PyVal, isStr content = false →
        sync_message (.VStr "user") content initOk clientOk pushOk
          = .ok ⟨false, false, false, false⟩) := by
  have hrole : _validate_role (.VStr "user") = .ok "user" := by decide
  constructor
  · intro role content h
    cases role <;> simp_all [sync_message, _validate_role, caughtBySync, isStr]
  · intro content h
    cases content <;> simp_all [sync_message, hrole, _validate_content, caughtBySync, isStr]

/-- Witness for the non-string behaviour at `None` and an integer. -/
theorem sync_message_nonstring_witness :
    sync_message .VNone (.VStr "x") true true true = .error .attributeError ∧
    sync_message (.VStr "user") (.VInt 3) true true true
      = .ok ⟨false, false, false, false⟩ :=
  ⟨(sync_message_nonstring true true true).1 .VNone (.VStr "x") rfl,
   (sync_message_nonstring true true true).2 (.VInt 3) rfl⟩

end Honcho
